import Mathlib

/-!
Verification of the POIDH control-panel repository's job supervision,
log tailing, audit reading and configuration display subsystems.

The repository ships two GUI variants (`src/gui/main.py`, PyQt6, and
`src/gui/poidh_gui.py`, PyQt5) plus a CLI (`src/gui/cli.py`).  The
definitions below are shallow embeddings of the relevant Python
functions: each Python function becomes a pure Lean function over the
data it actually inspects, with surrounding I/O abstracted into an
explicit description of the child process's observable behaviour
(its output lines, stderr content and exit code) or of the file system
(the audit document's parse status and contents).
-/

namespace Poidh

/-! ## Process behaviour abstractions -/

/-- Observable behaviour of one spawn attempt for the PyQt6 variant
(`main.py` `ProcessManager.run`): either the `subprocess.Popen` call (or
the surrounding try) raises with a message, or the child runs producing
a list of stdout lines (as returned by iterating `self.process.stdout`),
a stderr content string (what `self.process.stderr.read()` would
return), and an integer return code. -/
inductive SpawnOutcome where
  | fail (msg : String)
  | ok (stdoutLines : List String) (stderrContent : String) (returncode : Int)
deriving DecidableEq

namespace Main

/-- Signals emitted by `main.py` `ProcessManager`: `output_signal = pyqtSignal(str)`,
`error_signal = pyqtSignal(str)`, and `finished_signal = pyqtSignal()`
(note: no payload on the finished signal). -/
inductive Event where
  | out (s : String)
  | err (s : String)
  | finished
deriving DecidableEq

/-- Embedding of `main.py` lines 137-164, `ProcessManager.run`:
stdout lines are emitted one by one via `output_signal` (stripped);
after `wait()`, stderr is read and emitted as a single `error_signal`
blob only when the return code is non-zero and stderr is non-empty;
finally `finished_signal` is emitted.  On an exception the message is
emitted via `error_signal` followed by `finished_signal`. -/
def run : SpawnOutcome → List Event
  | .fail msg => [.err msg, .finished]
  | .ok stdoutLines stderrContent returncode =>
      stdoutLines.map (fun line => Event.out line.trim)
        ++ (if returncode ≠ 0 then
              (if stderrContent ≠ "" then [Event.err stderrContent] else [])
            else [])
        ++ [Event.finished]

/-- The texts of the `output_signal` (line event) emissions, in order. -/
def outTexts : List Event → List String
  | [] => []
  | .out s :: rest => s :: outTexts rest
  | _ :: rest => outTexts rest

end Main

/-- Observable behaviour of one spawn attempt for the PyQt5 variant
(`poidh_gui.py` `ProcessManager.run`): the process is spawned with
`stderr=subprocess.STDOUT`, so there is a single merged stream; its
behaviour is the list of merged lines read by `iter(readline, '')`
plus the final return code, or a spawn/read exception message. -/
inductive GuiSpawnOutcome where
  | fail (msg : String)
  | ok (mergedLines : List String) (returncode : Int)
deriving DecidableEq

namespace Gui

/-- Signals emitted by `poidh_gui.py` `ProcessManager`:
`output_signal = pyqtSignal(str)`, `error_signal = pyqtSignal(str)`,
`finished_signal = pyqtSignal(int)` (the finished signal carries the
integer return code). -/
inductive Event where
  | out (s : String)
  | err (s : String)
  | finishedCode (c : Int)
deriving DecidableEq

/-- Embedding of `poidh_gui.py` lines 43-66, `ProcessManager.run`:
each line of the merged stdout+stderr stream is emitted as an
`output_signal` event as soon as it is read (right-stripped); when the
stream closes, `wait()`'s return code is emitted on `finished_signal`.
On an exception, an `error_signal` with prefix `Error: ` is emitted
followed by `finished_signal(-1)`. -/
def run : GuiSpawnOutcome → List Event
  | .fail msg => [.err ("Error: " ++ msg), .finishedCode (-1)]
  | .ok mergedLines returncode =>
      mergedLines.map (fun line => Event.out line.trimRight)
        ++ [.finishedCode returncode]

/-- The texts of the `output_signal` (line event) emissions, in order. -/
def outTexts : List Event → List String
  | [] => []
  | .out s :: rest => s :: outTexts rest
  | _ :: rest => outTexts rest

end Gui

/-! ## Launch logic of the UI tabs -/

/-- Result, as observed by the caller, of one call to
`AgentTab.run_npm_command` (`main.py` lines 537-545).  `returnedNormally`
records that the method itself raises nothing (all process work happens
later inside the `QThread`); `managerCreated` records the unconditional
assignment `self.process_manager = ProcessManager(command)`; `events`
is the sequence of signals the background thread will deliver. -/
structure LaunchOutcome where
  returnedNormally : Bool
  managerCreated : Bool
  events : List Main.Event
deriving DecidableEq

/-- Embedding of `AgentTab.run_npm_command`: it sets the output text,
unconditionally constructs a `ProcessManager`, connects the signals and
calls `start()`, returning immediately.  Nothing in the method inspects
whether the spawn inside the thread will succeed. -/
def runNpmCommand (spawn : SpawnOutcome) : LaunchOutcome :=
  { returnedNormally := true
    managerCreated := true
    events := Main.run spawn }

/-- What a launch call reports: the source tabs have no notion of a
busy slot, so only `ok` is ever produced; `slotBusy` exists to state
the specified-but-absent rejection. -/
inductive LaunchResult where
  | ok
  | slotBusy
deriving DecidableEq

/-- State of one UI tab's launch slot (`BountyTab` in `poidh_gui.py` /
`AgentTab` in `main.py`): the list of all OS processes spawned so far,
each recorded by whether it has reached a terminal state (`true` =
terminal).  The tab keeps only a reference to the most recent
`ProcessManager`; replacing the reference does not stop the previous
process, so earlier entries stay in the list. -/
structure SlotState where
  spawned : List Bool
deriving DecidableEq

/-- Embedding of `BountyTab.launch_bounty` (`poidh_gui.py` lines
479-495) and `AgentTab.run_npm_command` (`main.py` lines 537-545):
with no check of any existing process, a new `ProcessManager` is
constructed and `start()`ed, so a new non-terminal process is always
appended and the call always reports success. -/
def launchBounty (st : SlotState) : SlotState × LaunchResult :=
  ({ spawned := st.spawned ++ [false] }, LaunchResult.ok)

/-- Number of spawned processes not yet in a terminal state. -/
def nonTerminalCount (st : SlotState) : Nat :=
  (st.spawned.filter (fun terminal => !terminal)).length

/-! ## Cancellation (`poidh_gui.py` `ProcessManager.stop`) -/

/-- `Popen.wait(timeout)`, time-abstracted: `t` is the number of
seconds until the process would exit after the terminate signal; the
call returns the exit time if it is within the timeout, and `none`
(raising `TimeoutExpired` at the timeout) otherwise. -/
def waitTimeout (timeout t : Nat) : Option Nat :=
  if t ≤ timeout then some t else none

/-- Outcome of `ProcessManager.stop`: whether the cooperative
`terminate()` was sent, whether `kill()` was invoked, and the time (in
seconds from the `stop` call) at which the process is dead. -/
structure StopOutcome where
  terminateSent : Bool
  killed : Bool
  endTime : Nat
deriving DecidableEq

/-- Embedding of `poidh_gui.py` lines 68-75, `ProcessManager.stop`, for
a running process that would exit `t` seconds after receiving the
cooperative terminate signal: `terminate()` is sent, then
`wait(timeout=5)`; if that raises `TimeoutExpired` (the process has not
exited within the 5-second grace period) the process is `kill()`ed
immediately, at the 5-second mark. -/
def stop (t : Nat) : StopOutcome :=
  match waitTimeout 5 t with
  | some exitTime => { terminateSent := true, killed := false, endTime := exitTime }
  | none => { terminateSent := true, killed := true, endTime := 5 }

/-! ## Log refresh (`main.py` `DashboardTab.refresh_logs`) -/

/-- Embedding of `main.py` lines 618-633, the `bot.log` branch of
`DashboardTab.refresh_logs`: the whole file is re-read with
`f.readlines()` and only the final 50 lines (`[-50:]`) are shown,
replacing the previous display contents. -/
def refreshLogs (fileLines : List String) : List String :=
  fileLines.drop (fileLines.length - 50)

/-! ## Audit trail (`cli.py` `POIDHCLI.audit_show`, `poidh_gui.py`
`MonitorTab.refresh_logs`) -/

/-- One entry of the parsed audit document, with the fields the
readers access (`entry.get('timestamp', '?')`, `entry.get('action', '?')`). -/
structure AuditEntry where
  timestamp : String
  action : String
deriving DecidableEq

/-- Parse status of `logs/audit-trail.json` as the readers observe it:
the file may be absent, may fail `json.load`, or parses to a document
whose `entries` list is given. -/
inductive AuditFile where
  | missing
  | malformed
  | parsed (entries : List AuditEntry)
deriving DecidableEq

/-- Python's trailing slice `l[-limit:]` for a non-negative `limit`:
for `limit = 0` the slice is `l[0:]`, the whole list (since `-0 == 0`);
for `limit ≥ 1` it is the final `min limit l.length` elements. -/
def pyTailSlice {α : Type} (l : List α) (limit : Nat) : List α :=
  if limit = 0 then l else l.drop (l.length - limit)

/-- The line `audit_show` prints per entry:
`f"[{ts}] {action}"` with `ts = entry.get('timestamp', '?')[:19]`. -/
def renderEntry (e : AuditEntry) : String :=
  "[" ++ e.timestamp.take 19 ++ "] " ++ e.action

/-- Embedding of `cli.py` lines 152-176, `POIDHCLI.audit_show`:
returns the CLI exit status together with the entry lines printed.
A missing file prints no entries and returns 1; a `json.load` failure
is caught and returns 1; otherwise the final `limit` entries
(`entries[-limit:]`) are printed in document order and 0 is returned. -/
def auditShow (file : AuditFile) (limit : Nat) : Nat × List String :=
  match file with
  | .missing => (1, [])
  | .malformed => (1, [])
  | .parsed entries => (0, (pyTailSlice entries limit).map renderEntry)

/-- The line `MonitorTab.refresh_logs` adds per new entry:
`f"[{entry.get('timestamp', '?')}] {entry.get('action', '?')}"`. -/
def renderGuiEntry (e : AuditEntry) : String :=
  "[" ++ e.timestamp ++ "] " ++ e.action

/-- Displayed state of the monitor tab: the items of `self.log_list`
and the text of `self.status_label`. -/
structure MonitorState where
  items : List String
  status : String
deriving DecidableEq

/-- Embedding of `poidh_gui.py` lines 556-587, `MonitorTab.refresh_logs`:
a missing file leaves everything unchanged; a parse failure is caught
and sets the status to Offline; otherwise the last 20 entries are
taken and, when the list widget holds fewer items, the entries beyond
the current count are appended, and the status is set to Online. -/
def monitorRefresh (file : AuditFile) (st : MonitorState) : MonitorState :=
  match file with
  | .missing => st
  | .malformed => { st with status := "🔴 Offline" }
  | .parsed entries =>
      let recent := pyTailSlice entries 20
      let newItems :=
        if st.items.length < recent.length then
          st.items ++ (recent.drop st.items.length).map renderGuiEntry
        else st.items
      { items := newItems, status := "🟢 Online" }

/-! ## Configuration display (`cli.py` `POIDHCLI.config_show`) -/

/-- Whether `needle` occurs as a contiguous run inside `hay`
(Python's `needle in hay` on strings), on character lists. -/
def charsContain (needle : List Char) : List Char → Bool
  | [] => needle.isEmpty
  | c :: rest => needle.isPrefixOf (c :: rest) || charsContain needle rest

/-- Python's `needle in hay` substring test on strings. -/
def strContains (hay needle : String) : Bool :=
  charsContain needle.toList hay.toList

/-- The fixed key list of `config_show` (`cli.py` lines 66-74). -/
def configKeys : List String :=
  ["CHAIN_ID", "BOT_PRIVATE_KEY", "BASE_RPC_URL", "OPENAI_API_KEY",
   "POLLING_INTERVAL", "MAX_GAS_PRICE_GWEI", "AUTO_APPROVE_GAS"]

/-- The masking condition of `config_show`: `'KEY' in key or 'PRIVATE' in key`. -/
def isSensitive (key : String) : Bool :=
  strContains key "KEY" || strContains key "PRIVATE"

/-- The masking step of `config_show` (`cli.py` lines 78-79):
`value = value[:4] + '...' if value != '(not set)' else value`,
applied only when the key is sensitive. -/
def maskValue (key value : String) : String :=
  if isSensitive key then
    (if value ≠ "(not set)" then value.take 4 ++ "..." else value)
  else value

/-- Python's `f"{key:25}"`: left-justified padding to width 25. -/
def padKey (key : String) : String :=
  key ++ String.mk (List.replicate (25 - key.length) ' ')

/-- The line `config_show` prints for one key given the environment's
value for it (`os.getenv(key, '(not set)')`). -/
def renderConfigLine (key : String) (v : Option String) : String :=
  padKey key ++ " " ++ maskValue key (v.getD "(not set)")

/-- Embedding of `cli.py` lines 61-82, `POIDHCLI.config_show`: the
sequence of configuration lines printed, as a function of the
environment (the configuration state). -/
def configShow (env : String → Option String) : List String :=
  configKeys.map (fun key => renderConfigLine key (env key))

/-- Embedding of `poidh_gui.py` lines 506-508,
`BountyTab.on_process_finished`: the status line appended when the
`finished_signal(int)` of the PyQt5 `ProcessManager` fires. -/
def onProcessFinished (code : Int) : String :=
  if code = 0 then "✅ Success" else "❌ Failed (code " ++ toString code ++ ")"

/-- Two observations of one configuration key are low-equivalent when
they are equal outright, or the key is sensitive and both values are
set, differ at most beyond their first 4 characters, and neither is
the literal placeholder string `(not set)`. -/
def lowEquiv (key : String) (v1 v2 : Option String) : Prop :=
  v1 = v2 ∨ (isSensitive key = true ∧ ∃ s1 s2, v1 = some s1 ∧ v2 = some s2 ∧
    s1 ≠ "(not set)" ∧ s2 ≠ "(not set)" ∧ s1.take 4 = s2.take 4)

/-- A three-entry audit document, used to instantiate the audit
theorems on concrete input. -/
def demoEntries : List AuditEntry :=
  [⟨"2024-01-01T00:00:00", "START"⟩,
   ⟨"2024-01-01T00:00:01", "CHECK"⟩,
   ⟨"2024-01-01T00:00:02", "SUCCESS"⟩]

/-- Environment whose private key is literally the placeholder string. -/
def envPkLiteral : String → Option String :=
  fun key => if key = "BOT_PRIVATE_KEY" then some "(not set)" else none

/-- Environment whose private key agrees with `envPkLiteral`'s on the
first 4 characters (and nowhere does any other key differ). -/
def envPkLookalike : String → Option String :=
  fun key => if key = "BOT_PRIVATE_KEY" then some "(not xxx)" else none

/-- Environment with one API key set. -/
def envKeyA : String → Option String :=
  fun key => if key = "OPENAI_API_KEY" then some "sk-abc123" else none

/-- Environment equal to `envKeyA` except in the API key's characters
beyond the first 4. -/
def envKeyB : String → Option String :=
  fun key => if key = "OPENAI_API_KEY" then some "sk-abz999" else none

end Poidh

open Poidh

/-! ## Helper lemmas -/

theorem gui_outTexts_append (a b : List Gui.Event) :
    Gui.outTexts (a ++ b) = Gui.outTexts a ++ Gui.outTexts b := by
  induction a with
  | nil => rfl
  | cons e rest ih => cases e <;> simp [Gui.outTexts, ih]

theorem gui_outTexts_map_out (l : List String) (f : String → String) :
    Gui.outTexts (l.map (fun s => Gui.Event.out (f s))) = l.map f := by
  induction l with
  | nil => rfl
  | cons s rest ih => simp [Gui.outTexts, ih]

/-! ## Claims -/

/-- C1 (counterexample): launching a second process in a slot whose
first process is still non-terminal does not fail with `SlotBusy`: the
second launch reports success and afterwards the slot holds two
non-terminal processes, so the slot does not have at most one
non-terminal Job. -/
theorem double_launch_spawns_two :
    nonTerminalCount (launchBounty ⟨[]⟩).1 = 1 ∧
    (launchBounty (launchBounty ⟨[]⟩).1).2 = LaunchResult.ok ∧
    nonTerminalCount (launchBounty (launchBounty ⟨[]⟩).1).1 = 2 := by
  decide

/-- C1 (amended): `launch_bounty` / `run_npm_command` never reject a
launch: every call spawns a new process unconditionally, so each launch
issued while the slot's existing process is non-terminal increases the
number of non-terminal processes by one instead of failing. -/
theorem launch_always_spawns (st : SlotState) :
    (launchBounty st).2 = LaunchResult.ok ∧
    nonTerminalCount (launchBounty st).1 = nonTerminalCount st + 1 := by
  refine ⟨rfl, ?_⟩
  simp [launchBounty, nonTerminalCount, List.filter_append]

/-- C2 (counterexample): the dashboard log refresh re-reads the whole
file and shows its last 50 lines, so a poll on a file that held
`alpha` and then grew by `beta` delivers `alpha` a second time, and
what it delivers is not the lines appended since the previous poll. -/
theorem refresh_logs_redelivers :
    refreshLogs ["alpha"] = ["alpha"] ∧
    refreshLogs ["alpha", "beta"] = ["alpha", "beta"] ∧
    refreshLogs ["alpha", "beta"] ≠ ["beta"] := by
  decide

/-- C2 (amended): each poll of `DashboardTab.refresh_logs` re-reads the
whole file and displays exactly its final `min 50 total` lines — a
suffix of the file replacing the previous display — so lines are
re-delivered while they remain within that window and lines pushed
beyond it are dropped. -/
theorem refresh_logs_window (fileLines : List String) :
    refreshLogs fileLines <:+ fileLines ∧
    (refreshLogs fileLines).length = min 50 fileLines.length := by
  constructor
  · exact List.drop_suffix _ _
  · simp only [refreshLogs, List.length_drop]
    omega

/-- C3: `ProcessManager.stop` always sends the cooperative
`terminate()` first; `kill()` is invoked exactly when the process has
not exited within the 5-second grace period, and in every case the
process is dead within at most 6 seconds of the `stop` call — a
process that would ignore the signal for longer (e.g. 10 seconds) is
killed at the 5-second mark, never later. -/
theorem stop_bounded_by_grace (t : Nat) :
    (stop t).terminateSent = true ∧
    ((stop t).killed = true ↔ 5 < t) ∧
    (stop t).endTime ≤ 6 ∧
    (5 < t → (stop t).endTime = 5) := by
  unfold stop waitTimeout
  by_cases h : t ≤ 5 <;> simp [h] <;> omega

/-- C3 (witness): a process ignoring the cooperative signal for 10
seconds is killed and dead at the 5-second mark, within the 5-6 second
bound. -/
theorem stop_bounded_by_grace_witness :
    (stop 10).endTime = 5 ∧ (stop 10).endTime ≤ 6 ∧ (stop 10).killed = true :=
  ⟨(stop_bounded_by_grace 10).2.2.2 (by decide),
   (stop_bounded_by_grace 10).2.2.1,
   ((stop_bounded_by_grace 10).2.1).2 (by decide)⟩

/-- C4 (counterexample): in the PyQt6 variant a process that writes
`boom` to standard-error and exits with code 0 produces only the
terminal event — the stderr content is never delivered as a line
event, so stdout and stderr are not delivered as a single merged
sequence of line events. -/
theorem stderr_line_dropped :
    Main.run (SpawnOutcome.ok [] "boom" 0) = [Main.Event.finished] ∧
    Main.Event.err "boom" ∉ Main.run (SpawnOutcome.ok [] "boom" 0) := by
  decide

/-- C4 (amended): in the PyQt5 variant the two streams are merged at
spawn time (`stderr=subprocess.STDOUT`) and every line of the merged
stream is delivered as a line event, one per line in read order,
with the terminal event (carrying the exit code) delivered last; in
the PyQt6 variant only the stdout lines are delivered as line events,
stderr being collected separately after exit. -/
theorem merged_stream_line_events (mergedLines : List String)
    (stdoutLines : List String) (stderrContent : String) (rc : Int) :
    Gui.outTexts (Gui.run (GuiSpawnOutcome.ok mergedLines rc))
      = mergedLines.map String.trimRight ∧
    (Gui.run (GuiSpawnOutcome.ok mergedLines rc)).getLast?
      = some (Gui.Event.finishedCode rc) ∧
    Main.outTexts (Main.run (SpawnOutcome.ok stdoutLines stderrContent rc))
      = stdoutLines.map String.trim := by
  refine ⟨?_, ?_, ?_⟩
  · show Gui.outTexts (mergedLines.map (fun l => Gui.Event.out l.trimRight) ++ _) = _
    rw [gui_outTexts_append, gui_outTexts_map_out]
    simp [Gui.outTexts]
  · simp [Gui.run]
  · show Main.outTexts (stdoutLines.map (fun l => Main.Event.out l.trim) ++ _ ++ _) = _
    induction stdoutLines with
    | nil =>
        cases Decidable.em (rc ≠ 0) with
        | inl h =>
            cases Decidable.em (stderrContent ≠ "") with
            | inl h2 => simp [h, h2, Main.outTexts]
            | inr h2 => simp [h, h2, Main.outTexts]
        | inr h => simp [h, Main.outTexts]
    | cons l rest ih => simpa [Main.outTexts] using ih

/-- C5 (counterexample): a spawn failure is not reported synchronously
to the caller of the launch: `run_npm_command` returns normally and
the `ProcessManager` record is created regardless, the failure being
delivered only later as an error event followed by the terminal
event. -/
theorem spawn_failure_async :
    runNpmCommand (SpawnOutcome.fail "spawn failed")
      = { returnedNormally := true, managerCreated := true,
          events := [Main.Event.err "spawn failed", Main.Event.finished] } := by
  decide

/-- C5 (amended): for every spawn outcome the launch call returns
normally and creates the manager record before any spawn is attempted;
a spawn failure is reported asynchronously as an error event followed
by the terminal event, and the slot accepts an immediate retry since a
launch is never rejected. -/
theorem launch_reports_failure_as_events (spawn : SpawnOutcome)
    (msg : String) (st : SlotState) :
    (runNpmCommand spawn).returnedNormally = true ∧
    (runNpmCommand spawn).managerCreated = true ∧
    (runNpmCommand (SpawnOutcome.fail msg)).events
      = [Main.Event.err msg, Main.Event.finished] ∧
    (launchBounty st).2 = LaunchResult.ok :=
  ⟨rfl, rfl, rfl, rfl⟩

/-- C6: for every limit at least 1, `audit_show` prints the final
`min limit total` entries of the parsed document; what is printed is
the rendering of a suffix of the entry list in document order (oldest
first, most recent last). -/
theorem audit_recent_last_min (entries : List AuditEntry) (limit : Nat)
    (h : 1 ≤ limit) :
    pyTailSlice entries limit <:+ entries ∧
    (auditShow (AuditFile.parsed entries) limit).2
      = (pyTailSlice entries limit).map renderEntry ∧
    (auditShow (AuditFile.parsed entries) limit).2.length
      = min limit entries.length := by
  have hne : limit ≠ 0 := by omega
  refine ⟨?_, rfl, ?_⟩
  · simp only [pyTailSlice, if_neg hne]
    exact List.drop_suffix _ _
  · simp only [auditShow, pyTailSlice, if_neg hne, List.length_map,
      List.length_drop]
    omega

/-- C6 (witness): `recent(5)` on a three-entry document prints exactly
those 3 entries, oldest first. -/
theorem audit_recent_last_min_witness :
    pyTailSlice demoEntries 5 <:+ demoEntries ∧
    (auditShow (AuditFile.parsed demoEntries) 5).2
      = (pyTailSlice demoEntries 5).map renderEntry ∧
    (auditShow (AuditFile.parsed demoEntries) 5).2.length
      = min 5 demoEntries.length :=
  audit_recent_last_min demoEntries 5 (by decide)

/-- C7 (counterexample): on a missing (and likewise a malformed) audit
document the CLI prints no entries but returns exit status 1 — the
shell convention for a failed command — rather than treating the
condition as an empty success. -/
theorem audit_missing_exit_code_one :
    auditShow AuditFile.missing 20 = (1, []) ∧
    (auditShow AuditFile.missing 20).1 ≠ 0 ∧
    auditShow AuditFile.malformed 20 = (1, []) := by
  decide

/-- C7 (amended): a missing, unreadable, or malformed audit document
never yields a partial result and never an uncaught exception: the CLI
prints no entries (though it returns exit status 1), and the GUI
monitor leaves its displayed items unchanged. -/
theorem audit_unavailable_empty (file : AuditFile) (limit : Nat)
    (st : MonitorState)
    (h : file = AuditFile.missing ∨ file = AuditFile.malformed) :
    (auditShow file limit).2 = [] ∧
    (auditShow file limit).1 = 1 ∧
    (monitorRefresh file st).items = st.items := by
  rcases h with rfl | rfl <;> exact ⟨rfl, rfl, rfl⟩

/-- C7 (witness): the amended claim at a malformed document and a
monitor already displaying one item. -/
theorem audit_unavailable_empty_witness :
    (auditShow AuditFile.malformed 20).2 = [] ∧
    (auditShow AuditFile.malformed 20).1 = 1 ∧
    (monitorRefresh AuditFile.malformed ⟨["[t] old"], "🟢 Online"⟩).items
      = (⟨["[t] old"], "🟢 Online"⟩ : MonitorState).items :=
  audit_unavailable_empty AuditFile.malformed 20 ⟨["[t] old"], "🟢 Online"⟩
    (Or.inr rfl)

/-- C8 (counterexample): in the PyQt6 variant the terminal event
carries no payload, so two runs whose processes exit with different
codes (0 and 5, no stderr) deliver identical event sequences — the
integer exit code is not surfaced to the caller in the terminal
event. -/
theorem finished_event_drops_exit_code :
    Main.run (SpawnOutcome.ok [] "" 0) = Main.run (SpawnOutcome.ok [] "" 5) ∧
    Main.run (SpawnOutcome.ok [] "" 5) = [Main.Event.finished] := by
  decide

/-- C8 (amended): in the PyQt5 variant a process that exits on its own
always produces the same kind of terminal event regardless of its exit
code, and that event carries the integer code, which the bounty tab
then renders (non-zero codes are shown in the failure message); in the
PyQt6 variant the terminal event carries no code. -/
theorem gui_terminal_event_carries_code (mergedLines : List String)
    (rc : Int) :
    (Gui.run (GuiSpawnOutcome.ok mergedLines rc)).getLast?
      = some (Gui.Event.finishedCode rc) ∧
    (rc ≠ 0 →
      onProcessFinished rc = "❌ Failed (code " ++ toString rc ++ ")") := by
  constructor
  · simp [Gui.run]
  · intro h
    simp [onProcessFinished, h]

/-- C8 (witness): a run that exits with code 3 ends with the terminal
event carrying 3, and the UI renders the code. -/
theorem gui_terminal_event_carries_code_witness :
    (Gui.run (GuiSpawnOutcome.ok ["hello"] 3)).getLast?
      = some (Gui.Event.finishedCode 3) ∧
    onProcessFinished 3 = "❌ Failed (code " ++ toString (3 : Int) ++ ")" :=
  ⟨(gui_terminal_event_carries_code ["hello"] 3).1,
   (gui_terminal_event_carries_code ["hello"] 3).2 (by decide)⟩

/-- C9: `audit_show` called with limit 0 prints every entry of the
parsed document (the Python slice `entries[-0:]` is `entries[0:]`, the
whole list), and with any limit at least 1 it prints exactly
`min limit total` entries. -/
theorem audit_limit_zero_prints_all (entries : List AuditEntry)
    (limit : Nat) :
    (auditShow (AuditFile.parsed entries) 0).2 = entries.map renderEntry ∧
    (1 ≤ limit →
      (auditShow (AuditFile.parsed entries) limit).2.length
        = min limit entries.length) := by
  constructor
  · simp [auditShow, pyTailSlice]
  · intro h
    have hne : limit ≠ 0 := by omega
    simp only [auditShow, pyTailSlice, if_neg hne, List.length_map,
      List.length_drop]
    omega

/-- C9 (witness): limit 0 on the three-entry document prints all three
entries; limit 2 prints exactly two. -/
theorem audit_limit_zero_prints_all_witness :
    (auditShow (AuditFile.parsed demoEntries) 0).2
      = demoEntries.map renderEntry ∧
    (auditShow (AuditFile.parsed demoEntries) 2).2.length
      = min 2 demoEntries.length :=
  ⟨(audit_limit_zero_prints_all demoEntries 2).1,
   (audit_limit_zero_prints_all demoEntries 2).2 (by decide)⟩

/-- C10 (counterexample): a configuration whose private key is
literally the placeholder string `(not set)` is printed in full —
more than its first 4 characters — and a second configuration that
differs from it only in the private key's characters beyond the first
4 produces different `config_show` output. -/
theorem config_show_not_set_leak :
    ("(not set)" : String).take 4 = ("(not xxx)" : String).take 4 ∧
    envPkLiteral "BOT_PRIVATE_KEY" ≠ envPkLookalike "BOT_PRIVATE_KEY" ∧
    configShow envPkLiteral ≠ configShow envPkLookalike := by
  decide

/-- C10 (amended): whenever no sensitive value is literally the
placeholder string `(not set)`, `config_show` reveals at most the
first 4 characters of a sensitive value: two environments that agree
on every configuration key up to low-equivalence (equal outright, or
both set, neither the placeholder, agreeing on their first 4
characters for a sensitive key) produce identical output. -/
theorem config_show_noninterference (env1 env2 : String → Option String)
    (h : ∀ key ∈ configKeys, lowEquiv key (env1 key) (env2 key)) :
    configShow env1 = configShow env2 := by
  unfold configShow
  apply List.map_congr_left
  intro key hk
  rcases h key hk with heq | ⟨hs, s1, s2, h1, h2, hn1, hn2, ht⟩
  · rw [heq]
  · simp only [renderConfigLine, h1, h2, Option.getD_some, maskValue, hs,
      if_true]
    rw [if_pos hn1, if_pos hn2, ht]

/-- C10 (witness): two environments whose API keys share their first 4
characters and differ only beyond them produce identical
`config_show` output. -/
theorem config_show_noninterference_witness :
    configShow envKeyA = configShow envKeyB := by
  apply config_show_noninterference
  intro key hk
  simp only [configKeys, List.mem_cons, List.not_mem_nil, or_false] at hk
  rcases hk with rfl | rfl | rfl | rfl | rfl | rfl | rfl
  · exact Or.inl (by decide)
  · exact Or.inl (by decide)
  · exact Or.inl (by decide)
  · exact Or.inr ⟨by decide, "sk-abc123", "sk-abz999", by decide, by decide,
      by decide, by decide, by decide⟩
  · exact Or.inl (by decide)
  · exact Or.inl (by decide)
  · exact Or.inl (by decide)
